import Mathlib

/-!
Shallow embedding of the voice-chat front end in `src/App.jsx`
(the `App` component: its state hooks, `startSpeechRecognition`,
`resetRecording`, `handleUserInput`, `speakResponse` and the voice-list
click handler), together with theorems settling the specification claims.

React `useState` hooks become fields of an explicit `AppState` record;
each handler becomes a function from its inputs and the current state to
the updated state paired with the list of observable side effects it
performs (network calls, speech-synthesis calls, alerts, recognition
construction/start).  Asynchronous completion of the `fetch` call is
modelled by passing the eventual outcome of the network request as an
explicit argument.
-/

/-- A speech-synthesis voice as surfaced by `window.speechSynthesis.getVoices()`:
the code reads only `name` and `lang`. -/
structure SpeechVoice where
  name : String
  lang : String
deriving DecidableEq, Repr

/-- The `useState` hooks of the `App` component, in declaration order
(`App.jsx` lines 37-45). -/
structure AppState where
  isLoading : Bool
  response : String
  error : String
  userInput : String
  selectedVoice : Nat
  isRecording : Bool
  voices : List SpeechVoice
  showVoices : Bool
  isModalOpen : Bool
deriving DecidableEq, Repr

/-- The initial state of the component: every string hook starts as `""`,
every boolean as `false`, `selectedVoice` as `0`, `voices` as `[]`. -/
def initialState : AppState :=
  { isLoading := false, response := "", error := "", userInput := ""
    selectedVoice := 0, isRecording := false, voices := []
    showVoices := false, isModalOpen := false }

/-- Observable side effects performed by the handlers. -/
inductive Effect where
  /-- `fetch(url, {method: POST, headers: JSON, body: JSON.stringify({text: bodyText})})`:
  a POST request to `url` whose JSON body is the object `\x7b "text": bodyText \x7d`. -/
  | fetchPost (url : String) (bodyText : String)
  /-- `synth.cancel()` on `window.speechSynthesis`. -/
  | synthCancel
  /-- `synth.speak(utterance)` where `utterance.text = text` and
  `utterance.voice = voice` (`none` models the JS value `undefined`,
  which `voices[selectedVoice]` yields when the index is out of range). -/
  | synthSpeak (text : String) (voice : Option SpeechVoice)
  /-- `alert(msg)`. -/
  | alert (msg : String)
  /-- `new SpeechRecognition()`: construction of a recognition instance. -/
  | recognitionConstruct
  /-- `recognition.start()` on the freshly constructed instance. -/
  | recognitionStart
deriving DecidableEq, Repr

/-- Outcome of `res.json()` on a fetch response, as far as the code
inspects it: `invalid` models a body that is not JSON (the `res.json()`
promise rejects, landing in the `catch` block); `valid r` models a JSON
body whose `response` field is the string `r` (the only field the code
reads, via `data.response`). -/
inductive JsonOutcome where
  | invalid
  | valid (response : String)
deriving DecidableEq, Repr

/-- Eventual outcome of the `fetch` call in `handleUserInput`:
`reject` models a network failure (the `fetch` promise rejects);
`resolve status body` models an HTTP response with the given status code
and body. -/
inductive FetchOutcome where
  | reject
  | resolve (status : Nat) (body : JsonOutcome)
deriving DecidableEq, Repr

/-- `res.ok` of the Fetch API: true exactly when the status is in 200-299. -/
def responseOk (status : Nat) : Bool :=
  200 ≤ status && status ≤ 299

/-- JS `String.prototype.trim`: removes whitespace from both ends of the
string.  Modelled on the character list (dropping whitespace characters
from the front and the back) so that it is structurally recursive and
evaluates by kernel reduction. -/
def jsTrim (s : String) : String :=
  String.mk (((s.data.dropWhile Char.isWhitespace).reverse.dropWhile
      Char.isWhitespace).reverse)

/-- `speakResponse(text)` (`App.jsx` lines 139-153): cancels any ongoing
synthesis, builds an utterance for `text`, assigns it
`voices[selectedVoice]` (JS indexing: `undefined`, i.e. `none`, when out
of range — there is no bounds guard), and speaks it.  The remaining
statements (`console.log` and `animateMessageSent`, itself only a
`console.log` placeholder) touch no state and perform no modelled
effect. -/
def speakResponse (text : String) (s : AppState) : AppState × List Effect :=
  (s, [Effect.synthCancel, Effect.synthSpeak text (s.voices.get? s.selectedVoice)])

/-- The error message set by `handleUserInput` on blank input. -/
def emptyInputMessage : String := "Please speak a valid input."

/-- The error message set by the `catch` block of `handleUserInput`. -/
def serviceErrorMessage : String := "Sorry, there was an issue processing the request."

/-- The hardcoded service endpoint of the `fetch` call. -/
def serviceUrl : String := "http://127.0.0.1:5000"

/-- `handleUserInput(input)` (`App.jsx` lines 105-137).  If the trimmed
input is empty (JS: `!input.trim()`) it sets the error message and
returns without any effect.  Otherwise it sets `isLoading`, clears the
error, performs the POST; on `res.ok` with a JSON body it stores
`data.response`, speaks it, and the `finally` clause clears `isLoading`;
a rejected fetch, a non-ok status (the explicit `throw`) or a
non-JSON body (a rejected `res.json()`) all land in the `catch` block,
which sets the error message, and `finally` clears `isLoading`. -/
def handleUserInput (input : String) (outcome : FetchOutcome) (s : AppState) :
    AppState × List Effect :=
  if jsTrim input = "" then
    ({ s with error := emptyInputMessage }, [])
  else
    let s1 := { s with isLoading := true, error := "" }
    let fetchEff := Effect.fetchPost serviceUrl input
    match outcome with
    | .reject =>
        ({ s1 with error := serviceErrorMessage, isLoading := false }, [fetchEff])
    | .resolve status body =>
        if responseOk status then
          match body with
          | .invalid =>
              ({ s1 with error := serviceErrorMessage, isLoading := false }, [fetchEff])
          | .valid r =>
              let (s2, speakEffs) := speakResponse r { s1 with response := r }
              ({ s2 with isLoading := false }, fetchEff :: speakEffs)
        else
          ({ s1 with error := serviceErrorMessage, isLoading := false }, [fetchEff])

/-- `resetRecording` (`App.jsx` lines 98-103). -/
def resetRecording (s : AppState) : AppState :=
  { s with isLoading := false, isRecording := false, isModalOpen := false }

/-- `startSpeechRecognition` (`App.jsx` lines 59-96), parameterised by
whether the platform exposes `window.SpeechRecognition` or
`window.webkitSpeechRecognition`.  When unavailable it alerts and
returns; when available it unconditionally constructs a fresh
recognition instance, starts it and installs the event handlers — the
current state (in particular `isRecording`) is never consulted, and the
state is only changed later by the handlers. -/
def startSpeechRecognition (available : Bool) (s : AppState) : AppState × List Effect :=
  if available then
    (s, [Effect.recognitionConstruct, Effect.recognitionStart])
  else
    (s, [Effect.alert "Speech Recognition is not supported in this browser."])

/-- The events a recognition instance delivers to the handlers installed
by `startSpeechRecognition`.  `onresult` carries the recognized
transcript and, since its handler awaits `handleUserInput`, the eventual
outcome of that fetch. -/
inductive RecognitionEvent where
  | onstart
  | onresult (transcript : String) (outcome : FetchOutcome)
  | onerror
  | onend
deriving DecidableEq, Repr

/-- The handler bodies installed by `startSpeechRecognition`
(`App.jsx` lines 74-95): `onstart` raises the loading/recording/modal
flags; `onresult` stores the transcript in `userInput`, awaits
`handleUserInput` on it and closes the modal; `onerror` sets the
recognition error message and resets; `onend` resets. -/
def recognitionCallback (ev : RecognitionEvent) (s : AppState) : AppState × List Effect :=
  match ev with
  | .onstart =>
      ({ s with isLoading := true, isRecording := true, isModalOpen := true }, [])
  | .onresult transcript outcome =>
      let (s1, effs) := handleUserInput transcript outcome { s with userInput := transcript }
      ({ s1 with isModalOpen := false }, effs)
  | .onerror =>
      (resetRecording { s with error := "Sorry, there was an error with speech recognition." }, [])
  | .onend =>
      (resetRecording s, [])

/-- Delivery of an event from a recognition instance to the component.
Each call to `startSpeechRecognition` (when available) constructs a
fresh instance; we number instances by creation order, `eventInstance`
being the instance the event comes from and `latestInstance` the most
recently created one.  The code keeps no generation counter and no
record of which instance is current: every instance's handlers are the
same closures over the component's setters, so the event is handled by
`recognitionCallback` regardless of whether its instance has been
superseded. -/
def deliverRecognitionEvent (eventInstance latestInstance : Nat)
    (ev : RecognitionEvent) (s : AppState) : AppState × List Effect :=
  recognitionCallback ev s

/-- The click handler of a voice list item (`App.jsx` line 208):
`setSelectedVoice(index)`. -/
def selectVoice (index : Nat) (s : AppState) : AppState :=
  { s with selectedVoice := index }

/-- Number of `recognition.start()` calls in a list of effects. -/
def countStarts (effs : List Effect) : Nat :=
  effs.countP fun e => match e with | .recognitionStart => true | _ => false

/-- Number of `fetch` POSTs in a list of effects. -/
def countFetches (effs : List Effect) : Nat :=
  effs.countP fun e => match e with | .fetchPost _ _ => true | _ => false

/-- Listening state of the component: the flags raised by the `onstart`
handler of a capture cycle. -/
def listeningState : AppState :=
  { initialState with isLoading := true, isRecording := true, isModalOpen := true }

/-- C1: for every input that is empty or whitespace-only after trimming,
`handleUserInput` sets the error hook to the empty-input message and
returns with no effects — in particular no fetch is performed. -/
theorem handleUserInput_blank_sets_error_no_fetch
    (input : String) (outcome : FetchOutcome) (s : AppState) (h : jsTrim input = "") :
    handleUserInput input outcome s = ({ s with error := emptyInputMessage }, [])
    ∧ countFetches (handleUserInput input outcome s).2 = 0 := by
  constructor
  · simp [handleUserInput, h]
  · simp [handleUserInput, h, countFetches]

/-- Witness for C1 at the whitespace-only input `"   "`. -/
theorem handleUserInput_blank_sets_error_no_fetch_witness :
    handleUserInput "   " FetchOutcome.reject initialState
      = ({ initialState with error := emptyInputMessage }, [])
    ∧ countFetches (handleUserInput "   " FetchOutcome.reject initialState).2 = 0 :=
  handleUserInput_blank_sets_error_no_fetch "   " FetchOutcome.reject initialState (by decide)

/-- C2: for every non-empty trimmed input, when the fetch resolves with a
2xx status and a JSON body whose `response` field is `r`, the final state
stores `r` in the `response` hook and the effects include speaking `r`
with the currently selected voice. -/
theorem handleUserInput_success_stores_and_speaks
    (input r : String) (status : Nat) (s : AppState)
    (h : jsTrim input ≠ "") (hok : responseOk status = true) :
    (handleUserInput input (FetchOutcome.resolve status (JsonOutcome.valid r)) s).1.response = r
    ∧ Effect.synthSpeak r (s.voices.get? s.selectedVoice)
        ∈ (handleUserInput input (FetchOutcome.resolve status (JsonOutcome.valid r)) s).2 := by
  constructor <;> simp [handleUserInput, speakResponse, h, hok]

/-- Witness for C2: input `"hello"`, service reply `{response: "hi there"}`
with HTTP 200, ending with `response = "hi there"` and a speak effect. -/
theorem handleUserInput_success_stores_and_speaks_witness :
    (handleUserInput "hello" (FetchOutcome.resolve 200 (JsonOutcome.valid "hi there"))
        initialState).1.response = "hi there"
    ∧ Effect.synthSpeak "hi there" (initialState.voices.get? initialState.selectedVoice)
        ∈ (handleUserInput "hello" (FetchOutcome.resolve 200 (JsonOutcome.valid "hi there"))
            initialState).2 :=
  handleUserInput_success_stores_and_speaks "hello" "hi there" 200 initialState
    (by decide) (by decide)

/-- C3 fails on the code: `startSpeechRecognition` never consults the
current state, so two calls issued while already Listening (recording
flag raised) construct two recognition instances and perform two
`start()` calls — not the one call the claim requires. -/
theorem startSpeechRecognition_two_calls_two_starts :
    listeningState.isRecording = true
    ∧ countStarts ((startSpeechRecognition true listeningState).2
        ++ (startSpeechRecognition true (startSpeechRecognition true listeningState).1).2) = 2
    ∧ (2 : Nat) ≠ 1 := by
  refine ⟨rfl, rfl, by decide⟩

/-- C4 fails on the code: there is no generation counter, and an event
from a superseded recognition instance (instance 0 after instance 1 was
created) is handled exactly like a current one — here a stale result
overwrites `userInput` and `response`, so it does mutate session state. -/
theorem deliverRecognitionEvent_stale_mutates_state :
    (0 : Nat) ≠ 1
    ∧ (deliverRecognitionEvent 0 1
        (RecognitionEvent.onresult "stale words"
          (FetchOutcome.resolve 200 (JsonOutcome.valid "stale reply")))
        listeningState).1.userInput = "stale words"
    ∧ (deliverRecognitionEvent 0 1
        (RecognitionEvent.onresult "stale words"
          (FetchOutcome.resolve 200 (JsonOutcome.valid "stale reply")))
        listeningState).1.response = "stale reply"
    ∧ listeningState.userInput ≠ "stale words" := by
  refine ⟨by decide, by decide, by decide, by decide⟩

/-- C5: for every non-empty trimmed input, a non-2xx response lands in
the catch block: the error hook is set to the service error message and
the `response` hook keeps its prior value. -/
theorem handleUserInput_httpError_response_unchanged
    (input : String) (status : Nat) (body : JsonOutcome) (s : AppState)
    (h : jsTrim input ≠ "") (hbad : responseOk status = false) :
    (handleUserInput input (FetchOutcome.resolve status body) s).1.response = s.response
    ∧ (handleUserInput input (FetchOutcome.resolve status body) s).1.error
        = serviceErrorMessage := by
  constructor <;> simp [handleUserInput, h, hbad]

/-- Witness for C5: HTTP 500 with a prior stored response `"earlier"`,
which is preserved while the error message is set. -/
theorem handleUserInput_httpError_response_unchanged_witness :
    (handleUserInput "hello" (FetchOutcome.resolve 500 JsonOutcome.invalid)
        { initialState with response := "earlier" }).1.response
      = ({ initialState with response := "earlier" } : AppState).response
    ∧ (handleUserInput "hello" (FetchOutcome.resolve 500 JsonOutcome.invalid)
        { initialState with response := "earlier" }).1.error = serviceErrorMessage :=
  handleUserInput_httpError_response_unchanged "hello" 500 JsonOutcome.invalid
    { initialState with response := "earlier" } (by decide) (by decide)

/-- C6: for every non-empty trimmed input, once the fetch outcome is in,
`handleUserInput` never leaves the loading flag raised: the final state
has `isLoading = false`, and either the stored response is spoken (the
effects include a speak of the stored response with the selected voice)
or the error hook holds the service error message. -/
theorem handleUserInput_never_stalls
    (input : String) (outcome : FetchOutcome) (s : AppState) (h : jsTrim input ≠ "") :
    (handleUserInput input outcome s).1.isLoading = false
    ∧ (Effect.synthSpeak (handleUserInput input outcome s).1.response
          (s.voices.get? s.selectedVoice) ∈ (handleUserInput input outcome s).2
       ∨ (handleUserInput input outcome s).1.error = serviceErrorMessage) := by
  cases outcome with
  | reject => constructor <;> simp [handleUserInput, h]
  | resolve status body =>
    cases hok : responseOk status with
    | false => cases body <;> (constructor <;> simp [handleUserInput, h, hok])
    | true =>
      cases body with
      | invalid => constructor <;> simp [handleUserInput, h, hok]
      | valid r => constructor <;> simp [handleUserInput, speakResponse, h, hok]

/-- Witness for C6 at input `"hello"` with a successful reply. -/
theorem handleUserInput_never_stalls_witness :
    (handleUserInput "hello" (FetchOutcome.resolve 200 (JsonOutcome.valid "hi"))
        initialState).1.isLoading = false
    ∧ (Effect.synthSpeak
          (handleUserInput "hello" (FetchOutcome.resolve 200 (JsonOutcome.valid "hi"))
            initialState).1.response
          (initialState.voices.get? initialState.selectedVoice)
        ∈ (handleUserInput "hello" (FetchOutcome.resolve 200 (JsonOutcome.valid "hi"))
            initialState).2
       ∨ (handleUserInput "hello" (FetchOutcome.resolve 200 (JsonOutcome.valid "hi"))
            initialState).1.error = serviceErrorMessage) :=
  handleUserInput_never_stalls "hello" (FetchOutcome.resolve 200 (JsonOutcome.valid "hi"))
    initialState (by decide)

/-- C7: for every non-empty trimmed input and every fetch outcome, the
submission performs exactly one POST, that POST goes to the configured
URL with the input as the JSON `text` field, and a non-2xx status or a
non-JSON body sets the service error message — with no further fetch
(no retry). -/
theorem handleUserInput_single_post_no_retry
    (input : String) (outcome : FetchOutcome) (s : AppState) (h : jsTrim input ≠ "") :
    countFetches (handleUserInput input outcome s).2 = 1
    ∧ Effect.fetchPost serviceUrl input ∈ (handleUserInput input outcome s).2
    ∧ (∀ url body, Effect.fetchPost url body ∈ (handleUserInput input outcome s).2 →
        url = serviceUrl ∧ body = input)
    ∧ (∀ status jbody, outcome = FetchOutcome.resolve status jbody →
        (responseOk status = false ∨ jbody = JsonOutcome.invalid) →
        (handleUserInput input outcome s).1.error = serviceErrorMessage) := by
  cases outcome with
  | reject =>
    refine ⟨?_, ?_, ?_, ?_⟩ <;> simp [handleUserInput, h, countFetches]
  | resolve status body =>
    cases hok : responseOk status with
    | false =>
      cases body <;>
        (refine ⟨?_, ?_, ?_, ?_⟩ <;> simp [handleUserInput, h, hok, countFetches])
    | true =>
      cases body with
      | invalid =>
        refine ⟨?_, ?_, ?_, ?_⟩ <;> simp [handleUserInput, h, hok, countFetches]
      | valid r =>
        refine ⟨?_, ?_, ?_, ?_⟩ <;>
          simp [handleUserInput, h, hok, countFetches, speakResponse]

/-- Witness for C7 at input `"hello"` with an HTTP 500 outcome. -/
theorem handleUserInput_single_post_no_retry_witness :
    countFetches (handleUserInput "hello" (FetchOutcome.resolve 500 JsonOutcome.invalid)
        initialState).2 = 1
    ∧ Effect.fetchPost serviceUrl "hello"
        ∈ (handleUserInput "hello" (FetchOutcome.resolve 500 JsonOutcome.invalid)
            initialState).2
    ∧ (∀ url body, Effect.fetchPost url body
          ∈ (handleUserInput "hello" (FetchOutcome.resolve 500 JsonOutcome.invalid)
              initialState).2 → url = serviceUrl ∧ body = "hello")
    ∧ (∀ status jbody,
        FetchOutcome.resolve 500 JsonOutcome.invalid = FetchOutcome.resolve status jbody →
        (responseOk status = false ∨ jbody = JsonOutcome.invalid) →
        (handleUserInput "hello" (FetchOutcome.resolve 500 JsonOutcome.invalid)
            initialState).1.error = serviceErrorMessage) :=
  handleUserInput_single_post_no_retry "hello" (FetchOutcome.resolve 500 JsonOutcome.invalid)
    initialState (by decide)

/-- C8: when the platform exposes no speech-recognition capability,
`startSpeechRecognition` surfaces the unavailability (an alert with the
not-supported message) and returns with the state untouched: no
recognition instance is constructed and no `start()` is attempted, for
every state. -/
theorem startSpeechRecognition_unavailable_no_start (s : AppState) :
    startSpeechRecognition false s
      = (s, [Effect.alert "Speech Recognition is not supported in this browser."])
    ∧ Effect.recognitionConstruct ∉ (startSpeechRecognition false s).2
    ∧ Effect.recognitionStart ∉ (startSpeechRecognition false s).2 := by
  refine ⟨rfl, ?_, ?_⟩ <;> simp [startSpeechRecognition]

/-- C9: selecting a voice updates only the `selectedVoice` hook — every
other hook is unchanged, in every state — and the next synthesis call
uses the newly selected index into the voice catalog. -/
theorem selectVoice_updates_only_selectedVoice (i : Nat) (t : String) (s : AppState) :
    (selectVoice i s).selectedVoice = i
    ∧ (selectVoice i s).isLoading = s.isLoading
    ∧ (selectVoice i s).response = s.response
    ∧ (selectVoice i s).error = s.error
    ∧ (selectVoice i s).userInput = s.userInput
    ∧ (selectVoice i s).isRecording = s.isRecording
    ∧ (selectVoice i s).voices = s.voices
    ∧ (selectVoice i s).showVoices = s.showVoices
    ∧ (selectVoice i s).isModalOpen = s.isModalOpen
    ∧ (speakResponse t (selectVoice i s)).2
        = [Effect.synthCancel, Effect.synthSpeak t (s.voices.get? i)] := by
  simp [selectVoice, speakResponse]

/-- C10: `speakResponse` is total when the selected index is out of range
(in particular when the voice catalog is empty): the utterance's voice is
the absent value `none`, yet prior speech is still cancelled and the
speak call still happens, with the state untouched. -/
theorem speakResponse_total_out_of_range (t : String) (s : AppState)
    (h : s.voices.length ≤ s.selectedVoice) :
    speakResponse t s = (s, [Effect.synthCancel, Effect.synthSpeak t none]) := by
  have hv : s.voices.get? s.selectedVoice = none := List.get?_eq_none.mpr h
  simp only [speakResponse, hv]

/-- Witness for C10: the initial state has an empty voice catalog and
selected index 0, yet speaking succeeds with an absent voice. -/
theorem speakResponse_total_out_of_range_witness :
    speakResponse "hi" initialState
      = (initialState, [Effect.synthCancel, Effect.synthSpeak "hi" none]) :=
  speakResponse_total_out_of_range "hi" initialState (by decide)
